import Mathlib

/-!
Shallow embedding of drivers/soc/qcom/smem_dramc.c.

The C file decodes a version-less DRAM-info blob from shared memory.  We model
the blob as a byte function, compute all struct offsets and sizes with the C
(LP64 / arm64) layout rules applied to the struct declarations of the source
(the structs are deliberately not packed there), and translate the classifier
and the three decode strategies field by field.  Machine integers are `Nat`
with explicit reductions: a 32-bit multiplication wraps with `% 2 ^ 32`, an
assignment of a `u32` to a `u8` keeps `% 256`.
-/

/-! ## C struct layout arithmetic (LP64: u64 and phys_addr_t are 8 bytes, aligned 8) -/

/-- Round `n` up to the next multiple of the alignment `a`. -/
def alignUp (n a : Nat) : Nat := ((n + a - 1) / a) * a

/-- Size and alignment of one C struct member. -/
structure CField where
  size : Nat
  align : Nat
deriving DecidableEq

/-- Offset of the first free byte after laying out `fields` from offset 0. -/
def layoutEnd (fields : List CField) : Nat :=
  fields.foldl (fun cur f => alignUp cur f.align + f.size) 0

/-- Alignment of a struct with members `fields` (maximum member alignment). -/
def structAlignOf (fields : List CField) : Nat :=
  fields.foldl (fun a f => max a f.align) 1

/-- `sizeof` of a struct with members `fields`. -/
def sizeofStruct (fields : List CField) : Nat :=
  alignUp (layoutEnd fields) (structAlignOf fields)

/-- Offset of the member of alignment `falign` that follows the members `fields`. -/
def offsetAfter (fields : List CField) (falign : Nat) : Nat :=
  alignUp (layoutEnd fields) falign

def u8f : CField := ⟨1, 1⟩
def le16f : CField := ⟨2, 2⟩
def u32f : CField := ⟨4, 4⟩
def u64f : CField := ⟨8, 8⟩
/-- phys_addr_t on arm64. -/
def physf : CField := ⟨8, 8⟩
/-- A C array member `T name[n]`. -/
def arrf (n : Nat) (f : CField) : CField := ⟨n * f.size, f.align⟩

/-! ## The source's constants and struct declarations -/

def MAX_DDR_FREQ_NUM_V3 : Nat := 13
def MAX_DDR_FREQ_NUM_V5 : Nat := 14
def MAX_DDR_REGION_NUM : Nat := 6
def MAX_CHAN_NUM : Nat := 8
def MAX_RANK_NUM : Nat := 2

/-- struct ddr_part_details { __le16 revision_id1; __le16 revision_id2;
    __le16 width; __le16 density; }; -/
def ddr_part_details_fields : List CField := [le16f, le16f, le16f, le16f]

def ddr_part_details_cf : CField :=
  ⟨sizeofStruct ddr_part_details_fields, structAlignOf ddr_part_details_fields⟩

/-- struct ddr_freq_table { u32 freq_khz; u8 enabled; }; -/
def ddr_freq_table_fields : List CField := [u32f, u8f]

def sizeof_ddr_freq_table : Nat := sizeofStruct ddr_freq_table_fields

def ddr_freq_table_cf : CField :=
  ⟨sizeof_ddr_freq_table, structAlignOf ddr_freq_table_fields⟩

/-- Offset of freq_khz inside struct ddr_freq_table. -/
def ddr_freq_table_freq_khz_off : Nat := offsetAfter [] u32f.align

/-- Offset of enabled inside struct ddr_freq_table. -/
def ddr_freq_table_enabled_off : Nat := offsetAfter [u32f] u8f.align

/-- struct ddr_freq_plan_v3 { struct ddr_freq_table ddr_freq[MAX_DDR_FREQ_NUM_V3];
    u8 num_ddr_freqs; phys_addr_t clk_period_address; }; -/
def ddr_freq_plan_v3_fields : List CField :=
  [arrf MAX_DDR_FREQ_NUM_V3 ddr_freq_table_cf, u8f, physf]

def ddr_freq_plan_v3_cf : CField :=
  ⟨sizeofStruct ddr_freq_plan_v3_fields, structAlignOf ddr_freq_plan_v3_fields⟩

/-- struct ddr_details_v3 { u8 manufacturer_id; u8 device_type;
    struct ddr_part_details ddr_params[MAX_CHAN_NUM];
    struct ddr_freq_plan_v3 ddr_freq_tbl; u8 num_channels; }; -/
def ddr_details_v3_fields : List CField :=
  [u8f, u8f, arrf MAX_CHAN_NUM ddr_part_details_cf, ddr_freq_plan_v3_cf, u8f]

def sizeof_ddr_details_v3 : Nat := sizeofStruct ddr_details_v3_fields

/-- Offset of ddr_freq_tbl (hence of ddr_freq[0]) inside struct ddr_details_v3. -/
def ddr_details_v3_freq_tbl_off : Nat :=
  offsetAfter [u8f, u8f, arrf MAX_CHAN_NUM ddr_part_details_cf] ddr_freq_plan_v3_cf.align

/-- struct ddr_details_v4 = ddr_details_v3 fields followed by
    u8 num_ranks[MAX_CHAN_NUM]; u8 highest_bank_addr_bit[MAX_CHAN_NUM][MAX_RANK_NUM]; -/
def ddr_details_v4_fields : List CField :=
  ddr_details_v3_fields ++ [arrf MAX_CHAN_NUM u8f, arrf (MAX_CHAN_NUM * MAX_RANK_NUM) u8f]

def sizeof_ddr_details_v4 : Nat := sizeofStruct ddr_details_v4_fields

/-- Offset of ddr_freq_tbl inside struct ddr_details_v4 (same leading members as v3). -/
def ddr_details_v4_freq_tbl_off : Nat := ddr_details_v3_freq_tbl_off

/-- Offset of highest_bank_addr_bit[0][0] inside struct ddr_details_v4. -/
def ddr_details_v4_hbb_off : Nat :=
  offsetAfter (ddr_details_v3_fields ++ [arrf MAX_CHAN_NUM u8f]) 1

/-- Offset of highest_bank_addr_bit[c][r] inside struct ddr_details_v4
    (row-major u8 array, row length MAX_RANK_NUM). -/
def ddr_details_v4_hbb_entry_off (c r : Nat) : Nat :=
  ddr_details_v4_hbb_off + c * MAX_RANK_NUM + r

/-- struct ddr_freq_plan_v5 { struct ddr_freq_table ddr_freq[MAX_DDR_FREQ_NUM_V5];
    u8 num_ddr_freqs; phys_addr_t clk_period_address; u32 max_nom_ddr_freq; }; -/
def ddr_freq_plan_v5_fields : List CField :=
  [arrf MAX_DDR_FREQ_NUM_V5 ddr_freq_table_cf, u8f, physf, u32f]

def ddr_freq_plan_v5_cf : CField :=
  ⟨sizeofStruct ddr_freq_plan_v5_fields, structAlignOf ddr_freq_plan_v5_fields⟩

/-- struct ddr_region_v5 { u64 start_address; u64 size; u64 mem_controller_address;
    u32 granule_size; u8 ddr_rank; u8 segments_start_index; u64 segments_start_offset; }; -/
def ddr_region_v5_fields : List CField :=
  [u64f, u64f, u64f, u32f, u8f, u8f, u64f]

def sizeof_ddr_region_v5 : Nat := sizeofStruct ddr_region_v5_fields

/-- The named (non flexible-array) members of struct ddr_regions_v5:
    u32 ddr_region_num; u64 ddr_rank0_size; u64 ddr_rank1_size;
    u64 ddr_cs0_start_addr; u64 ddr_cs1_start_addr; u32 highest_bank_addr_bit; -/
def ddr_regions_v5_fields : List CField :=
  [u32f, u64f, u64f, u64f, u64f, u32f]

/-- sizeof of struct ddr_regions_v5: the flexible array member
    `struct ddr_region_v5 ddr_region[]` contributes alignment but no size. -/
def sizeof_ddr_regions_v5 : Nat :=
  alignUp (layoutEnd ddr_regions_v5_fields)
    (max (structAlignOf ddr_regions_v5_fields) (structAlignOf ddr_region_v5_fields))

def ddr_regions_v5_cf : CField :=
  ⟨sizeof_ddr_regions_v5, max (structAlignOf ddr_regions_v5_fields) (structAlignOf ddr_region_v5_fields)⟩

/-- Offset of highest_bank_addr_bit inside struct ddr_regions_v5. -/
def ddr_regions_v5_hbb_off : Nat :=
  offsetAfter [u32f, u64f, u64f, u64f, u64f] u32f.align

/-- Offset of the flexible array ddr_region[] inside struct ddr_regions_v5. -/
def ddr_regions_v5_region_array_off : Nat :=
  offsetAfter ddr_regions_v5_fields (structAlignOf ddr_region_v5_fields)

/-- struct ddr_details_v5 { u8 manufacturer_id; u8 device_type;
    struct ddr_part_details ddr_params[MAX_CHAN_NUM];
    struct ddr_freq_plan_v5 ddr_freq_tbl; u8 num_channels;
    struct ddr_regions_v5 ddr_regions; }; -/
def ddr_details_v5_fields : List CField :=
  [u8f, u8f, arrf MAX_CHAN_NUM ddr_part_details_cf, ddr_freq_plan_v5_cf, u8f, ddr_regions_v5_cf]

def sizeof_ddr_details_v5 : Nat := sizeofStruct ddr_details_v5_fields

/-- Offset of ddr_freq_tbl inside struct ddr_details_v5. -/
def ddr_details_v5_freq_tbl_off : Nat :=
  offsetAfter [u8f, u8f, arrf MAX_CHAN_NUM ddr_part_details_cf] ddr_freq_plan_v5_cf.align

/-- Offset of ddr_regions inside struct ddr_details_v5. -/
def ddr_details_v5_regions_off : Nat :=
  offsetAfter [u8f, u8f, arrf MAX_CHAN_NUM ddr_part_details_cf, ddr_freq_plan_v5_cf, u8f]
    ddr_regions_v5_cf.align

/-- Offset of ddr_regions.highest_bank_addr_bit from the start of a v5 blob. -/
def ddr_details_v5_hbb_off : Nat :=
  ddr_details_v5_regions_off + ddr_regions_v5_hbb_off

/-- Offset of the first trailing region record from the start of a v5 blob. -/
def ddr_details_v5_region0_off : Nat :=
  ddr_details_v5_regions_off + ddr_regions_v5_region_array_off

/-! ## Blobs and little-endian field reads -/

/-- A raw blob: byte at each offset.  Reads reduce each byte `% 256`, so the
    model never depends on out-of-range values of the function. -/
def Blob : Type := Nat → Nat

/-- Read `width` bytes at `off` as one little-endian unsigned integer. -/
def readLE (b : Blob) (off width : Nat) : Nat :=
  match width with
  | 0 => 0
  | w + 1 => b off % 256 + 256 * readLE b (off + 1) w

/-! ## The result object and the decode strategies -/

/-- struct smem_dram { unsigned long frequencies[MAX_DDR_FREQ_NUM_V5];
    u32 num_frequencies; u8 hbb; }.  The array prefix of length
    num_frequencies is modelled as a list. -/
structure smem_dram where
  frequencies : List Nat
  hbb : Nat
deriving DecidableEq

/-- The freshly devm_kzalloc-ed (zero-filled) result object. -/
def smem_dram_zeroed : smem_dram := ⟨[], 0⟩

/-- One iteration of the shared frequency-table walk: entry `i` of the table
    at blob offset `base`; if freq_khz and enabled are both non-zero, append
    `1000 * freq_khz` (a u32 multiplication, wrapping mod 2^32). -/
def freqStep (b : Blob) (base : Nat) (d : smem_dram) (i : Nat) : smem_dram :=
  let freq_khz := readLE b (base + i * sizeof_ddr_freq_table + ddr_freq_table_freq_khz_off) 4
  let enabled := readLE b (base + i * sizeof_ddr_freq_table + ddr_freq_table_enabled_off) 1
  if freq_khz ≠ 0 ∧ enabled ≠ 0 then
    { d with frequencies := d.frequencies ++ [1000 * freq_khz % 2 ^ 32] }
  else d

/-- smem_dram_parse_v3_data: walk 13 entries, or 14 with the additional slot. -/
def smem_dram_parse_v3_data (d : smem_dram) (b : Blob) (additional_freq_entry : Bool) : smem_dram :=
  let num_freq_entries :=
    if additional_freq_entry then MAX_DDR_FREQ_NUM_V3 + 1 else MAX_DDR_FREQ_NUM_V3
  (List.range num_freq_entries).foldl (freqStep b ddr_details_v3_freq_tbl_off) d

/-- smem_dram_parse_v4_data: hbb from highest_bank_addr_bit[0][0], then a
    MAX_DDR_FREQ_NUM_V3-entry walk of the v3-kind table. -/
def smem_dram_parse_v4_data (d : smem_dram) (b : Blob) : smem_dram :=
  let d := { d with hbb := readLE b (ddr_details_v4_hbb_entry_off 0 0) 1 }
  (List.range MAX_DDR_FREQ_NUM_V3).foldl (freqStep b ddr_details_v4_freq_tbl_off) d

/-- smem_dram_parse_v5_data: hbb from ddr_regions.highest_bank_addr_bit (a u32
    assigned to a u8, truncating), then a MAX_DDR_FREQ_NUM_V5-entry walk. -/
def smem_dram_parse_v5_data (d : smem_dram) (b : Blob) : smem_dram :=
  let d := { d with hbb := readLE b ddr_details_v5_hbb_off 4 % 256 }
  (List.range MAX_DDR_FREQ_NUM_V5).foldl (freqStep b ddr_details_v5_freq_tbl_off) d

/-! ## Classification by size -/

def INFO_UNKNOWN : Int := 0
def INFO_V3 : Int := 1
def INFO_V3_WITH_14_FREQS : Int := 2
def INFO_V4 : Int := 3
def INFO_V5 : Int := 4
def INFO_V5_WITH_6_REGIONS : Int := 5

def EINVAL : Int := 22
def ENODATA : Int := 61

/-- smem_dram_infer_struct_version: exact-size classification. -/
def smem_dram_infer_struct_version (size : Nat) : Int :=
  if size < sizeof_ddr_details_v3 then -EINVAL
  else if size = sizeof_ddr_details_v3 then INFO_V3
  else if size = sizeof_ddr_details_v3 + sizeof_ddr_freq_table then INFO_V3_WITH_14_FREQS
  else if size = sizeof_ddr_details_v4 then INFO_V4
  else if size = sizeof_ddr_details_v5 + 4 * sizeof_ddr_region_v5 then INFO_V5
  else if size = sizeof_ddr_details_v5 + 6 * sizeof_ddr_region_v5 then INFO_V5_WITH_6_REGIONS
  else INFO_UNKNOWN

/-! ## Top-level parse and the query surface -/

/-- smem_dram_parse, from the point where the blob and its size are in hand.
    The state is the global `__dram` handle (`none` before a first successful
    parse); the second component is the call's outcome (the returned error, or
    success).  `__dram` is assigned only on the all-success path, after the
    decode strategy has run to completion. -/
def smem_dram_parse (st : Option smem_dram) (b : Blob) (size : Nat) :
    Option smem_dram × Except Int Unit :=
  let ver := smem_dram_infer_struct_version size
  if ver < 0 then (st, Except.error (-ENODATA))
  else if ver = INFO_UNKNOWN then (st, Except.error (-EINVAL))
  else
    let dram :=
      if ver = INFO_V3 then smem_dram_parse_v3_data smem_dram_zeroed b false
      else if ver = INFO_V3_WITH_14_FREQS then smem_dram_parse_v3_data smem_dram_zeroed b true
      else if ver = INFO_V4 then smem_dram_parse_v4_data smem_dram_zeroed b
      else smem_dram_parse_v5_data smem_dram_zeroed b
    (some dram, Except.ok ())

/-- qcom_smem_dram_get_hbb: `__dram ? __dram->hbb : -ENODATA`. -/
def qcom_smem_dram_get_hbb (st : Option smem_dram) : Int :=
  match st with
  | none => -ENODATA
  | some d => (d.hbb : Int)

/-! ## Helper lemmas: offsets as numerals, the walk characterized -/

theorem sizeof_ddr_freq_table_eq : sizeof_ddr_freq_table = 8 := by decide

theorem sizeof_ddr_details_v3_eq : sizeof_ddr_details_v3 = 200 := by decide

theorem sizeof_ddr_details_v4_eq : sizeof_ddr_details_v4 = 224 := by decide

theorem sizeof_ddr_region_v5_eq : sizeof_ddr_region_v5 = 40 := by decide

theorem sizeof_ddr_details_v5_eq : sizeof_ddr_details_v5 = 264 := by decide

theorem freq_tbl_off_v3_eq : ddr_details_v3_freq_tbl_off = 72 := by decide

theorem freq_tbl_off_v5_eq : ddr_details_v5_freq_tbl_off = 72 := by decide

theorem hbb_off_v4_eq : ddr_details_v4_hbb_entry_off 0 0 = 201 := by decide

theorem hbb_off_v5_eq : ddr_details_v5_hbb_off = 256 := by decide

theorem region0_off_v5_eq : ddr_details_v5_region0_off = 264 := by decide

/-- The value entry `i` of the frequency table at `base` contributes: `some`
    of the converted frequency when freq_khz and enabled are both non-zero,
    `none` otherwise. -/
def entryVal (b : Blob) (base i : Nat) : Option Nat :=
  let freq_khz := readLE b (base + i * sizeof_ddr_freq_table + ddr_freq_table_freq_khz_off) 4
  let enabled := readLE b (base + i * sizeof_ddr_freq_table + ddr_freq_table_enabled_off) 1
  if freq_khz ≠ 0 ∧ enabled ≠ 0 then some (1000 * freq_khz % 2 ^ 32) else none

theorem freqStep_eq_entryVal (b : Blob) (base : Nat) (d : smem_dram) (i : Nat) :
    freqStep b base d i =
      match entryVal b base i with
      | some v => { d with frequencies := d.frequencies ++ [v] }
      | none => d := by
  unfold freqStep entryVal
  by_cases h :
      readLE b (base + i * sizeof_ddr_freq_table + ddr_freq_table_freq_khz_off) 4 ≠ 0 ∧
      readLE b (base + i * sizeof_ddr_freq_table + ddr_freq_table_enabled_off) 1 ≠ 0 <;>
    simp [h]

/-- The walk appends, in table order, exactly the contributions of the walked
    entries. -/
theorem walk_frequencies (b : Blob) (base : Nat) (n : Nat) (d : smem_dram) :
    ((List.range n).foldl (freqStep b base) d).frequencies =
      d.frequencies ++ (List.range n).filterMap (entryVal b base) := by
  induction n generalizing d with
  | zero => simp
  | succ n ih =>
      rw [List.range_succ, List.foldl_append, List.filterMap_append]
      simp only [List.foldl_cons, List.foldl_nil, List.filterMap_cons, List.filterMap_nil]
      rw [freqStep_eq_entryVal]
      cases h : entryVal b base n with
      | none => simp [ih]
      | some v => simp [ih]

/-- The walk never touches hbb. -/
theorem walk_hbb (b : Blob) (base : Nat) (n : Nat) (d : smem_dram) :
    ((List.range n).foldl (freqStep b base) d).hbb = d.hbb := by
  induction n generalizing d with
  | zero => simp
  | succ n ih =>
      rw [List.range_succ, List.foldl_append]
      simp only [List.foldl_cons, List.foldl_nil]
      rw [freqStep_eq_entryVal]
      cases entryVal b base n <;> simp [ih]

/-- A field read only depends on the bytes it covers. -/
theorem readLE_congr (b b' : Blob) (off w : Nat)
    (h : ∀ n, off ≤ n → n < off + w → b n = b' n) :
    readLE b off w = readLE b' off w := by
  induction w generalizing off with
  | zero => rfl
  | succ w ih =>
      unfold readLE
      rw [h off (Nat.le_refl off) (by omega), ih (off + 1) (fun n h1 h2 => h n (by omega) (by omega))]

/-- An entry's contribution only depends on the five bytes of that entry. -/
theorem entryVal_congr (b b' : Blob) (base i : Nat)
    (h : ∀ n, base + i * 8 ≤ n → n < base + i * 8 + 5 → b n = b' n) :
    entryVal b base i = entryVal b' base i := by
  have e1 : sizeof_ddr_freq_table = 8 := by decide
  have e2 : ddr_freq_table_freq_khz_off = 0 := by decide
  have e3 : ddr_freq_table_enabled_off = 4 := by decide
  unfold entryVal
  rw [readLE_congr b b' (base + i * sizeof_ddr_freq_table + ddr_freq_table_freq_khz_off) 4 ?_,
      readLE_congr b b' (base + i * sizeof_ddr_freq_table + ddr_freq_table_enabled_off) 1 ?_] <;>
  · intro n h1 h2
    simp only [e1, e2, e3] at h1 h2
    exact h n (by omega) (by omega)

/-! ## Concrete blobs used as witnesses and counterexamples -/

/-- The all-zero blob. -/
def blobZ : Blob := fun _ => 0

/-- Only frequency-table entry 13 is populated: freq_khz 5 (bytes 176..179),
    enabled 1 (byte 180). -/
def blobC1 : Blob := fun n => if n = 176 then 5 else if n = 180 then 1 else 0

/-- Frequency-table entry 12 populated: freq_khz 7 (byte 168), enabled (byte 172). -/
def blobC1w : Blob := fun n => if n = 168 then 7 else if n = 172 then 1 else 0

/-- Entries 0 and 1 both carry freq_khz 7, enabled. -/
def blobC2 : Blob := fun n =>
  if n = 72 then 7 else if n = 76 then 1 else if n = 80 then 7 else if n = 84 then 1 else 0

/-- Entry 0 carries freq_khz 2^29 = 536870912 (little-endian bytes 0,0,0,32), enabled. -/
def blobC3 : Blob := fun n => if n = 75 then 32 else if n = 76 then 1 else 0

/-- Entry 0 carries freq_khz 1600000 (little-endian bytes 0,106,24,0), enabled. -/
def blob16 : Blob := fun n => if n = 73 then 106 else if n = 74 then 24 else if n = 76 then 1 else 0

/-- V5 blob: regions-header highest_bank_addr_bit byte (offset 256) is 5 and
    every byte of the trailing region array (offsets 264..503) is 9. -/
def blobC4a : Blob := fun n => if n = 256 then 5 else if 264 ≤ n ∧ n < 504 then 9 else 0

/-- Same as blobC4a except the header highest_bank_addr_bit byte is 7. -/
def blobC4b : Blob := fun n => if n = 256 then 7 else if 264 ≤ n ∧ n < 504 then 9 else 0

/-- Same as blobC4a except every byte of the trailing region array is 0. -/
def blobC4c : Blob := fun n => if n = 256 then 5 else 0

/-- Entry 0: freq 0 but enabled; entry 1: freq 1600000 but disabled;
    entry 2: freq 1600000 and enabled. -/
def blobC6 : Blob := fun n =>
  if n = 76 then 1
  else if n = 81 then 106 else if n = 82 then 24
  else if n = 89 then 106 else if n = 90 then 24 else if n = 92 then 1 else 0

/-- V4 blob: highest_bank_addr_bit[0][0] (byte 201) is 3 and
    highest_bank_addr_bit[1][0] (byte 203) is 7. -/
def blobC7 : Blob := fun n => if n = 201 then 3 else if n = 203 then 7 else 0

/-- Same [0][0] entry as blobC7 but every other hbb array byte (202..216) is 9. -/
def blobC7b : Blob := fun n => if n = 201 then 3 else if 202 ≤ n ∧ n < 217 then 9 else 0

/-- V5 blob whose 32-bit regions-header highest_bank_addr_bit is 0x1234 = 4660
    (little-endian bytes 52, 18 at offsets 256, 257). -/
def blobC10 : Blob := fun n => if n = 256 then 52 else if n = 257 then 18 else 0

/-! ## Claim C5 -/

/-- Claim C5: the classifier is a complete exact-size case analysis.  Every
    size below sizeof(struct ddr_details_v3) yields -EINVAL (TooSmall); each
    of the five recognized exact sizes yields exactly its identifier; the five
    sizes are pairwise distinct; and every other size at or above
    sizeof(struct ddr_details_v3) yields INFO_UNKNOWN (Unrecognized). -/
theorem classify_complete_case_analysis :
    (∀ n, n < sizeof_ddr_details_v3 → smem_dram_infer_struct_version n = -EINVAL) ∧
    smem_dram_infer_struct_version sizeof_ddr_details_v3 = INFO_V3 ∧
    smem_dram_infer_struct_version (sizeof_ddr_details_v3 + sizeof_ddr_freq_table) =
      INFO_V3_WITH_14_FREQS ∧
    smem_dram_infer_struct_version sizeof_ddr_details_v4 = INFO_V4 ∧
    smem_dram_infer_struct_version (sizeof_ddr_details_v5 + 4 * sizeof_ddr_region_v5) = INFO_V5 ∧
    smem_dram_infer_struct_version (sizeof_ddr_details_v5 + 6 * sizeof_ddr_region_v5) =
      INFO_V5_WITH_6_REGIONS ∧
    ([sizeof_ddr_details_v3, sizeof_ddr_details_v3 + sizeof_ddr_freq_table,
      sizeof_ddr_details_v4, sizeof_ddr_details_v5 + 4 * sizeof_ddr_region_v5,
      sizeof_ddr_details_v5 + 6 * sizeof_ddr_region_v5] : List Nat).Nodup ∧
    (∀ n, sizeof_ddr_details_v3 ≤ n →
      n ∉ ([sizeof_ddr_details_v3, sizeof_ddr_details_v3 + sizeof_ddr_freq_table,
            sizeof_ddr_details_v4, sizeof_ddr_details_v5 + 4 * sizeof_ddr_region_v5,
            sizeof_ddr_details_v5 + 6 * sizeof_ddr_region_v5] : List Nat) →
      smem_dram_infer_struct_version n = INFO_UNKNOWN) := by
  refine ⟨?_, by decide, by decide, by decide, by decide, by decide, by decide, ?_⟩
  · intro n h
    unfold smem_dram_infer_struct_version
    rw [if_pos h]
  · intro n hge hmem
    simp only [List.mem_cons, List.not_mem_nil, or_false, not_or] at hmem
    obtain ⟨n1, n2, n3, n4, n5⟩ := hmem
    unfold smem_dram_infer_struct_version
    rw [if_neg (Nat.not_lt.2 hge), if_neg n1, if_neg n2, if_neg n3, if_neg n4, if_neg n5]

/-- Witness for C5: size 100 is TooSmall, size 300 is Unrecognized. -/
theorem classify_complete_case_analysis_witness :
    smem_dram_infer_struct_version 100 = -EINVAL ∧
    smem_dram_infer_struct_version 300 = INFO_UNKNOWN :=
  ⟨classify_complete_case_analysis.1 100 (by decide),
   classify_complete_case_analysis.2.2.2.2.2.2.2 300 (by decide) (by decide)⟩

/-! ## Claim C7 -/

/-- Claim C7: for a V4 blob the decoded highest-bank-address-bit is the byte
    at highest_bank_addr_bit[0][0]; any blob agreeing with it on that one byte
    decodes to the same hbb, whatever the other array entries hold. -/
theorem v4_hbb_from_chan0_rank0 (b : Blob) :
    (smem_dram_parse_v4_data smem_dram_zeroed b).hbb =
      b (ddr_details_v4_hbb_entry_off 0 0) % 256 ∧
    ∀ b' : Blob,
      b' (ddr_details_v4_hbb_entry_off 0 0) = b (ddr_details_v4_hbb_entry_off 0 0) →
      (smem_dram_parse_v4_data smem_dram_zeroed b').hbb =
        (smem_dram_parse_v4_data smem_dram_zeroed b).hbb := by
  have key : ∀ c : Blob, (smem_dram_parse_v4_data smem_dram_zeroed c).hbb =
      c (ddr_details_v4_hbb_entry_off 0 0) % 256 := by
    intro c
    unfold smem_dram_parse_v4_data
    rw [walk_hbb]
    simp [readLE]
  refine ⟨key b, fun b' h => ?_⟩
  rw [key b, key b', h]

/-- Witness for C7: hbb[0][0] = 3, hbb[1][0] = 7 decodes to 3, also when all
    the other array bytes are 9. -/
theorem v4_hbb_from_chan0_rank0_witness :
    (smem_dram_parse_v4_data smem_dram_zeroed blobC7).hbb = 3 ∧
    (smem_dram_parse_v4_data smem_dram_zeroed blobC7b).hbb = 3 :=
  ⟨((v4_hbb_from_chan0_rank0 blobC7).1).trans (by decide),
   ((v4_hbb_from_chan0_rank0 blobC7).2 blobC7b (by decide)).trans
     (((v4_hbb_from_chan0_rank0 blobC7).1).trans (by decide))⟩

/-! ## Claim C10 -/

/-- Claim C10: the V5 highest-bank-address-bit field is 32 bits wide, but the
    result keeps only its low byte: the stored hbb is the raw little-endian
    u32 reduced mod 256, which is exactly the field's first byte. -/
theorem v5_hbb_truncated_to_low_byte (b : Blob) :
    (smem_dram_parse_v5_data smem_dram_zeroed b).hbb =
      readLE b ddr_details_v5_hbb_off 4 % 256 ∧
    (smem_dram_parse_v5_data smem_dram_zeroed b).hbb = readLE b ddr_details_v5_hbb_off 1 ∧
    (smem_dram_parse_v5_data smem_dram_zeroed b).hbb < 256 := by
  have key : (smem_dram_parse_v5_data smem_dram_zeroed b).hbb =
      readLE b ddr_details_v5_hbb_off 4 % 256 := by
    unfold smem_dram_parse_v5_data
    rw [walk_hbb]
  refine ⟨key, ?_, ?_⟩
  · rw [key]
    show (b ddr_details_v5_hbb_off % 256 + 256 * readLE b (ddr_details_v5_hbb_off + 1) 3) % 256 =
      readLE b ddr_details_v5_hbb_off 1
    rw [Nat.add_mul_mod_self_left]
    simp [readLE, Nat.mod_mod_of_dvd]
  · rw [key]
    exact Nat.mod_lt _ (by decide)

/-- Witness for C10: raw 32-bit field 0x1234 stores hbb 0x34 = 52. -/
theorem v5_hbb_truncated_to_low_byte_witness :
    (smem_dram_parse_v5_data smem_dram_zeroed blobC10).hbb = 52 ∧
    readLE blobC10 ddr_details_v5_hbb_off 4 = 4660 :=
  ⟨((v5_hbb_truncated_to_low_byte blobC10).1).trans (by decide), by decide⟩

/-! ## Claim C8 -/

/-- Claim C8: the V3 strategy never touches hbb (for any initial result
    object), and a parse at either V3-family size produces a result whose hbb
    is still the zero the allocation gave it. -/
theorem v3_leaves_hbb_default (b : Blob) (d : smem_dram) (extra : Bool)
    (st : Option smem_dram) (sz : Nat)
    (hsz : sz = sizeof_ddr_details_v3 ∨ sz = sizeof_ddr_details_v3 + sizeof_ddr_freq_table) :
    (smem_dram_parse_v3_data d b extra).hbb = d.hbb ∧
    ∃ d2, (smem_dram_parse st b sz).1 = some d2 ∧ d2.hbb = 0 := by
  constructor
  · unfold smem_dram_parse_v3_data
    exact walk_hbb b ddr_details_v3_freq_tbl_off _ d
  · have hbbz : ∀ x : Bool, (smem_dram_parse_v3_data smem_dram_zeroed b x).hbb = 0 := by
      intro x
      unfold smem_dram_parse_v3_data
      exact walk_hbb b ddr_details_v3_freq_tbl_off _ smem_dram_zeroed
    rcases hsz with h | h <;> subst h
    · have hv : smem_dram_infer_struct_version sizeof_ddr_details_v3 = INFO_V3 := by decide
      refine ⟨smem_dram_parse_v3_data smem_dram_zeroed b false, ?_, hbbz false⟩
      unfold smem_dram_parse
      rw [hv]
      norm_num [INFO_V3, INFO_UNKNOWN]
    · have hv : smem_dram_infer_struct_version (sizeof_ddr_details_v3 + sizeof_ddr_freq_table) =
          INFO_V3_WITH_14_FREQS := by decide
      refine ⟨smem_dram_parse_v3_data smem_dram_zeroed b true, ?_, hbbz true⟩
      unfold smem_dram_parse
      rw [hv]
      norm_num [INFO_V3_WITH_14_FREQS, INFO_UNKNOWN, INFO_V3]

/-- Witness for C8: the zero blob at the exact V3 size. -/
theorem v3_leaves_hbb_default_witness :
    (smem_dram_parse_v3_data smem_dram_zeroed blobZ false).hbb = smem_dram_zeroed.hbb ∧
    ∃ d2, (smem_dram_parse none blobZ sizeof_ddr_details_v3).1 = some d2 ∧ d2.hbb = 0 :=
  v3_leaves_hbb_default blobZ smem_dram_zeroed false none sizeof_ddr_details_v3 (Or.inl rfl)

/-! ## Claim C9 -/

/-- Claim C9: the query returns -ENODATA while no parse has succeeded and the
    hbb of the published result after one has; a failing parse leaves the
    handle untouched, and a succeeding parse publishes a complete result (the
    handle the query reads is exactly the fully decoded object). -/
theorem get_hbb_query_contract (st : Option smem_dram) (b : Blob) (sz : Nat) :
    qcom_smem_dram_get_hbb none = -ENODATA ∧
    (∀ d : smem_dram, qcom_smem_dram_get_hbb (some d) = (d.hbb : Int)) ∧
    (∀ e : Int, (smem_dram_parse st b sz).2 = Except.error e → (smem_dram_parse st b sz).1 = st) ∧
    ((smem_dram_parse st b sz).2 = Except.ok () →
      ∃ d, (smem_dram_parse st b sz).1 = some d ∧
        qcom_smem_dram_get_hbb ((smem_dram_parse st b sz).1) = (d.hbb : Int)) := by
  refine ⟨rfl, fun d => rfl, ?_, ?_⟩
  · intro e he
    unfold smem_dram_parse at he ⊢
    by_cases h1 : smem_dram_infer_struct_version sz < 0
    · simp [h1]
    · by_cases h2 : smem_dram_infer_struct_version sz = INFO_UNKNOWN
      · simp [h1, h2, INFO_UNKNOWN]
      · simp [h1, h2] at he
  · intro hok
    unfold smem_dram_parse at hok ⊢
    by_cases h1 : smem_dram_infer_struct_version sz < 0
    · simp [h1] at hok
    · by_cases h2 : smem_dram_infer_struct_version sz = INFO_UNKNOWN
      · simp [h1, h2, INFO_UNKNOWN] at hok
      · simp only [h1, h2, if_false]
        exact ⟨_, rfl, rfl⟩

/-- Witness for C9: size 0 fails and leaves the handle empty; the exact V3
    size succeeds and the query then reads the decoded result's hbb. -/
theorem get_hbb_query_contract_witness :
    (smem_dram_parse none blobZ 0).1 = none ∧
    ∃ d, (smem_dram_parse none blobZ sizeof_ddr_details_v3).1 = some d ∧
      qcom_smem_dram_get_hbb ((smem_dram_parse none blobZ sizeof_ddr_details_v3).1) =
        (d.hbb : Int) :=
  ⟨(get_hbb_query_contract none blobZ 0).2.2.1 (-ENODATA) rfl,
   (get_hbb_query_contract none blobZ sizeof_ddr_details_v3).2.2.2 rfl⟩

/-! ## Claim C6 -/

/-- Claim C6: the decoded list is the table-order walk of the V4 table; an
    entry with freq_khz 0 (even if enabled) or enabled 0 (even with non-zero
    freq_khz) contributes nothing, and an entry with freq_khz 1600000 and a
    set enabled flag contributes exactly 1600000000 Hz. -/
theorem v4_filter_and_convert (b : Blob) :
    (smem_dram_parse_v4_data smem_dram_zeroed b).frequencies =
      (List.range MAX_DDR_FREQ_NUM_V3).filterMap (entryVal b ddr_details_v4_freq_tbl_off) ∧
    ∀ i : Nat,
      ((readLE b (ddr_details_v4_freq_tbl_off + i * sizeof_ddr_freq_table +
          ddr_freq_table_freq_khz_off) 4 = 0 ∨
        readLE b (ddr_details_v4_freq_tbl_off + i * sizeof_ddr_freq_table +
          ddr_freq_table_enabled_off) 1 = 0) →
        entryVal b ddr_details_v4_freq_tbl_off i = none) ∧
      (readLE b (ddr_details_v4_freq_tbl_off + i * sizeof_ddr_freq_table +
          ddr_freq_table_freq_khz_off) 4 = 1600000 →
        readLE b (ddr_details_v4_freq_tbl_off + i * sizeof_ddr_freq_table +
          ddr_freq_table_enabled_off) 1 ≠ 0 →
        entryVal b ddr_details_v4_freq_tbl_off i = some 1600000000) := by
  refine ⟨?_, fun i => ⟨?_, ?_⟩⟩
  · unfold smem_dram_parse_v4_data
    rw [walk_frequencies]
    simp [smem_dram_zeroed]
  · intro h
    unfold entryVal
    rcases h with h | h <;> simp [h]
  · intro hf he
    unfold entryVal
    rw [hf, if_pos ⟨by norm_num, he⟩]
    norm_num

/-- Witness for C6: entry 0 (freq 0, enabled) and entry 1 (freq 1600000,
    disabled) contribute nothing; entry 2 (freq 1600000, enabled) gives the
    one-element list [1600000000]. -/
theorem v4_filter_and_convert_witness :
    (smem_dram_parse_v4_data smem_dram_zeroed blobC6).frequencies = [1600000000] ∧
    entryVal blobC6 ddr_details_v4_freq_tbl_off 0 = none ∧
    entryVal blobC6 ddr_details_v4_freq_tbl_off 1 = none ∧
    entryVal blobC6 ddr_details_v4_freq_tbl_off 2 = some 1600000000 :=
  ⟨((v4_filter_and_convert blobC6).1).trans (by decide),
   ((v4_filter_and_convert blobC6).2 0).1 (Or.inl (by decide)),
   ((v4_filter_and_convert blobC6).2 1).1 (Or.inr (by decide)),
   ((v4_filter_and_convert blobC6).2 2).2 (by decide) (by decide)⟩

/-! ## Claim C4 -/

/-- Claim C4 counterexample: blobC4a and blobC4c agree everywhere except on
    the trailing region array (every array byte 9 versus 0, region record 0
    included), yet both decode hbb 5; blobC4b has the identical region array
    as blobC4a but a different regions-header highest_bank_addr_bit byte
    (offset 256, before the array at 264) and decodes hbb 7.  The decoded hbb
    is therefore not read from the first region record of the trailing array;
    it is the fixed-offset header field. -/
theorem v5_hbb_not_from_region_record :
    (smem_dram_parse none blobC4a (sizeof_ddr_details_v5 + 4 * sizeof_ddr_region_v5)).1 =
      some ⟨[], 5⟩ ∧
    (smem_dram_parse none blobC4b (sizeof_ddr_details_v5 + 4 * sizeof_ddr_region_v5)).1 =
      some ⟨[], 7⟩ ∧
    (smem_dram_parse none blobC4c (sizeof_ddr_details_v5 + 4 * sizeof_ddr_region_v5)).1 =
      some ⟨[], 5⟩ ∧
    blobC4a ddr_details_v5_region0_off = 9 ∧
    blobC4b ddr_details_v5_region0_off = 9 ∧
    blobC4c ddr_details_v5_region0_off = 0 ∧
    blobC4a ddr_details_v5_hbb_off = 5 ∧
    blobC4b ddr_details_v5_hbb_off = 7 ∧
    blobC4c ddr_details_v5_hbb_off = 5 := by
  decide

/-- Claim C4 amended: for a V5 blob the decoded hbb is the u32 field
    highest_bank_addr_bit of the ddr_regions_v5 header, at an offset that is
    fixed (independent of the 4-versus-6 region count) and lies before the
    trailing region array; any blob agreeing on the fixed-size head (below
    the region array) decodes the same hbb. -/
theorem v5_hbb_from_regions_header (b : Blob) :
    (smem_dram_parse_v5_data smem_dram_zeroed b).hbb =
      readLE b (ddr_details_v5_regions_off + ddr_regions_v5_hbb_off) 4 % 256 ∧
    ddr_details_v5_regions_off + ddr_regions_v5_hbb_off + 4 ≤ ddr_details_v5_region0_off ∧
    ∀ b' : Blob, (∀ n, n < ddr_details_v5_region0_off → b n = b' n) →
      (smem_dram_parse_v5_data smem_dram_zeroed b').hbb =
        (smem_dram_parse_v5_data smem_dram_zeroed b).hbb := by
  have key : ∀ c : Blob, (smem_dram_parse_v5_data smem_dram_zeroed c).hbb =
      readLE c (ddr_details_v5_regions_off + ddr_regions_v5_hbb_off) 4 % 256 := by
    intro c
    unfold smem_dram_parse_v5_data
    rw [walk_hbb]
    rfl
  refine ⟨key b, by decide, fun b' h => ?_⟩
  rw [key b, key b']
  have hoff : ddr_details_v5_regions_off + ddr_regions_v5_hbb_off = 256 := by decide
  have hr0 : ddr_details_v5_region0_off = 264 := by decide
  rw [hoff]
  rw [hr0] at h
  rw [readLE_congr b' b 256 4 (fun n h1 h2 => (h n (by omega)).symm)]

set_option maxRecDepth 4000 in
/-- Witness for C4: blobC4a and blobC4c differ on every byte of the trailing
    region array yet decode the same hbb. -/
theorem v5_hbb_from_regions_header_witness :
    (smem_dram_parse_v5_data smem_dram_zeroed blobC4c).hbb =
      (smem_dram_parse_v5_data smem_dram_zeroed blobC4a).hbb :=
  (v5_hbb_from_regions_header blobC4a).2.2 blobC4c (by decide)

/-! ## Claim C1 -/

/-- Two blobs whose walked entries agree are folded identically. -/
theorem walk_congr (b b' : Blob) (base n : Nat) (d : smem_dram)
    (h : ∀ i, i < n → entryVal b base i = entryVal b' base i) :
    (List.range n).foldl (freqStep b base) d = (List.range n).foldl (freqStep b' base) d := by
  induction n generalizing d with
  | zero => rfl
  | succ n ih =>
      rw [List.range_succ, List.foldl_append, List.foldl_append]
      simp only [List.foldl_cons, List.foldl_nil]
      rw [ih d (fun i hi => h i (by omega)), freqStep_eq_entryVal, freqStep_eq_entryVal,
        h n (by omega)]

/-- Claim C1 counterexample: a blob whose only populated frequency-table
    entry is the slot at table index 13 (freq_khz 5, enabled) decodes, at the
    exact V4 size, to an empty frequency list: the V4 walk stops after 13
    entries, so index 13 is never appended. -/
theorem v4_entry13_ignored :
    smem_dram_infer_struct_version sizeof_ddr_details_v4 = INFO_V4 ∧
    readLE blobC1 (ddr_details_v4_freq_tbl_off + 13 * sizeof_ddr_freq_table +
      ddr_freq_table_freq_khz_off) 4 = 5 ∧
    readLE blobC1 (ddr_details_v4_freq_tbl_off + 13 * sizeof_ddr_freq_table +
      ddr_freq_table_enabled_off) 1 = 1 ∧
    (smem_dram_parse none blobC1 sizeof_ddr_details_v4).1 = some ⟨[], 0⟩ := by
  decide

/-- Claim C1 amended: the V4 walk covers the 13 slots of the v3-kind table
    (indices 0..12): a non-zero enabled entry at the last walked index 12 is
    appended, and the decode depends only on the bytes of those 13 entries
    plus the hbb byte, never on a 14th slot. -/
theorem v4_walks_13_entries (b : Blob)
    (h12f : readLE b (ddr_details_v4_freq_tbl_off + 12 * sizeof_ddr_freq_table +
      ddr_freq_table_freq_khz_off) 4 ≠ 0)
    (h12e : readLE b (ddr_details_v4_freq_tbl_off + 12 * sizeof_ddr_freq_table +
      ddr_freq_table_enabled_off) 1 ≠ 0) :
    1000 * readLE b (ddr_details_v4_freq_tbl_off + 12 * sizeof_ddr_freq_table +
        ddr_freq_table_freq_khz_off) 4 % 2 ^ 32 ∈
      (smem_dram_parse_v4_data smem_dram_zeroed b).frequencies ∧
    ∀ b' : Blob,
      (∀ n, n < ddr_details_v4_freq_tbl_off + MAX_DDR_FREQ_NUM_V3 * sizeof_ddr_freq_table →
        b n = b' n) →
      b (ddr_details_v4_hbb_entry_off 0 0) = b' (ddr_details_v4_hbb_entry_off 0 0) →
      smem_dram_parse_v4_data smem_dram_zeroed b = smem_dram_parse_v4_data smem_dram_zeroed b' := by
  constructor
  · unfold smem_dram_parse_v4_data
    rw [walk_frequencies]
    simp only [smem_dram_zeroed, List.nil_append]
    refine List.mem_filterMap.2 ⟨12, by decide, ?_⟩
    simp only [entryVal]
    rw [if_pos ⟨h12f, h12e⟩]
  · intro b' hlow hhbb
    unfold smem_dram_parse_v4_data
    have hhbbr : readLE b (ddr_details_v4_hbb_entry_off 0 0) 1 =
        readLE b' (ddr_details_v4_hbb_entry_off 0 0) 1 :=
      readLE_congr b b' _ 1 (fun n h1 h2 => by
        have hn : n = ddr_details_v4_hbb_entry_off 0 0 := by omega
        rw [hn, hhbb])
    rw [hhbbr]
    refine walk_congr b b' ddr_details_v4_freq_tbl_off MAX_DDR_FREQ_NUM_V3 _ (fun i hi => ?_)
    refine entryVal_congr b b' ddr_details_v4_freq_tbl_off i (fun n h1 h2 => ?_)
    have e1 : ddr_details_v4_freq_tbl_off = 72 := by decide
    have e2 : MAX_DDR_FREQ_NUM_V3 * sizeof_ddr_freq_table = 104 := by decide
    have e3 : MAX_DDR_FREQ_NUM_V3 = 13 := by decide
    rw [e1] at h1 h2
    rw [e3] at hi
    refine hlow n ?_
    rw [e1, e2]
    omega

/-- Witness for C1: entry 12 (freq_khz 7, enabled) is appended. -/
theorem v4_walks_13_entries_witness :
    1000 * readLE blobC1w (ddr_details_v4_freq_tbl_off + 12 * sizeof_ddr_freq_table +
        ddr_freq_table_freq_khz_off) 4 % 2 ^ 32 ∈
      (smem_dram_parse_v4_data smem_dram_zeroed blobC1w).frequencies :=
  (v4_walks_13_entries blobC1w (by decide) (by decide)).1

/-! ## Claim C2 -/

/-- Two walked indices that both map to `some v` put `v` into the filterMap
    at least twice. -/
theorem two_le_count_filterMap (f : Nat → Option Nat) (v i j n : Nat)
    (hij : i < j) (hi : f i = some v) (hj : f j = some v) :
    j < n → 2 ≤ ((List.range n).filterMap f).count v := by
  induction n with
  | zero => omega
  | succ n ih =>
      intro hjn
      rw [List.range_succ, List.filterMap_append, List.count_append]
      by_cases h : j < n
      · have := ih h
        omega
      · have hj2 : j = n := by omega
        subst hj2
        have h1 : 0 < ((List.range j).filterMap f).count v := by
          rw [List.count_pos_iff]
          exact List.mem_filterMap.2 ⟨i, List.mem_range.2 hij, hi⟩
        have h2 : (([j] : List Nat).filterMap f).count v = 1 := by
          simp [List.filterMap_cons, hj]
        omega

/-- Claim C2 counterexample: a V3-classified blob whose table entries 0 and 1
    both carry freq_khz 7 (enabled) decodes to [7000, 7000]: the duplicated
    value appears twice in the result list, not once. -/
theorem freq_list_duplicates_counterexample :
    smem_dram_infer_struct_version sizeof_ddr_details_v3 = INFO_V3 ∧
    (smem_dram_parse none blobC2 sizeof_ddr_details_v3).1 = some ⟨[7000, 7000], 0⟩ ∧
    ((smem_dram_parse none blobC2 sizeof_ddr_details_v3).1.getD
      smem_dram_zeroed).frequencies.count 7000 = 2 := by
  decide

/-- Claim C2 amended: the walk never deduplicates; if two distinct walked
    entries are both non-zero and enabled with the same converted value, the
    value appears at least twice in the decoded list (once per valid entry),
    under the V3-with-extra-slot strategy and the V5 strategy alike. -/
theorem freq_list_duplicates_retained (b : Blob) (i j v : Nat) (hij : i < j)
    (hjn : j < MAX_DDR_FREQ_NUM_V5)
    (hi : entryVal b ddr_details_v3_freq_tbl_off i = some v)
    (hj : entryVal b ddr_details_v3_freq_tbl_off j = some v) :
    2 ≤ ((smem_dram_parse_v3_data smem_dram_zeroed b true).frequencies).count v ∧
    2 ≤ ((smem_dram_parse_v5_data smem_dram_zeroed b).frequencies).count v := by
  have e14 : MAX_DDR_FREQ_NUM_V3 + 1 = MAX_DDR_FREQ_NUM_V5 := by decide
  have eoff : ddr_details_v5_freq_tbl_off = ddr_details_v3_freq_tbl_off := by decide
  constructor
  · unfold smem_dram_parse_v3_data
    rw [if_pos rfl, walk_frequencies, e14]
    simp only [smem_dram_zeroed, List.nil_append]
    exact two_le_count_filterMap _ v i j _ hij hi hj hjn
  · unfold smem_dram_parse_v5_data
    rw [walk_frequencies, eoff]
    simp only [smem_dram_zeroed, List.nil_append]
    exact two_le_count_filterMap _ v i j _ hij hi hj hjn

/-- Witness for C2: blobC2 has entries 0 and 1 both converting to 7000. -/
theorem freq_list_duplicates_retained_witness :
    2 ≤ ((smem_dram_parse_v3_data smem_dram_zeroed blobC2 true).frequencies).count 7000 ∧
    2 ≤ ((smem_dram_parse_v5_data smem_dram_zeroed blobC2).frequencies).count 7000 :=
  freq_list_duplicates_retained blobC2 0 1 7000 (by decide) (by decide) (by decide) (by decide)

/-! ## Claim C3 -/

/-- Whatever succeeds from an empty handle, the decoded list is the walk of
    some prefix of at most 14 table entries at the shared table offset. -/
theorem strategy_frequencies (b : Blob) (sz : Nat) (d : smem_dram)
    (hd : (smem_dram_parse none b sz).1 = some d) :
    ∃ n, n ≤ MAX_DDR_FREQ_NUM_V5 ∧
      d.frequencies = (List.range n).filterMap (entryVal b ddr_details_v3_freq_tbl_off) := by
  have eoff : ddr_details_v5_freq_tbl_off = ddr_details_v3_freq_tbl_off := by decide
  unfold smem_dram_parse at hd
  by_cases h1 : smem_dram_infer_struct_version sz < 0
  · simp [h1] at hd
  · by_cases h2 : smem_dram_infer_struct_version sz = INFO_UNKNOWN
    · simp [h1, h2, INFO_UNKNOWN] at hd
    · rw [if_neg h1, if_neg h2] at hd
      simp only [Option.some.injEq] at hd
      by_cases h3 : smem_dram_infer_struct_version sz = INFO_V3
      · rw [if_pos h3] at hd
        refine ⟨MAX_DDR_FREQ_NUM_V3, by decide, ?_⟩
        rw [← hd]
        unfold smem_dram_parse_v3_data
        rw [if_neg (by simp), walk_frequencies]
        simp [smem_dram_zeroed]
      · rw [if_neg h3] at hd
        by_cases h4 : smem_dram_infer_struct_version sz = INFO_V3_WITH_14_FREQS
        · rw [if_pos h4] at hd
          refine ⟨MAX_DDR_FREQ_NUM_V3 + 1, by decide, ?_⟩
          rw [← hd]
          unfold smem_dram_parse_v3_data
          rw [if_pos rfl, walk_frequencies]
          simp [smem_dram_zeroed]
        · rw [if_neg h4] at hd
          by_cases h5 : smem_dram_infer_struct_version sz = INFO_V4
          · rw [if_pos h5] at hd
            refine ⟨MAX_DDR_FREQ_NUM_V3, by decide, ?_⟩
            rw [← hd]
            unfold smem_dram_parse_v4_data
            rw [walk_frequencies]
            simp only [smem_dram_zeroed, List.nil_append]
            rfl
          · rw [if_neg h5] at hd
            refine ⟨MAX_DDR_FREQ_NUM_V5, by decide, ?_⟩
            rw [← hd]
            unfold smem_dram_parse_v5_data
            rw [walk_frequencies, eoff]
            simp [smem_dram_zeroed]

/-- Claim C3 counterexample: entry 0 carries freq_khz 2^29 = 536870912,
    enabled; the 32-bit product 1000 * 2^29 = 125 * 2^32 wraps to exactly 0,
    so the V3-classified decode stores the frequency value 0. -/
theorem freq_zero_on_wrap_counterexample :
    readLE blobC3 (ddr_details_v3_freq_tbl_off + 0 * sizeof_ddr_freq_table +
      ddr_freq_table_freq_khz_off) 4 = 536870912 ∧
    (smem_dram_parse none blobC3 sizeof_ddr_details_v3).1 = some ⟨[0], 0⟩ ∧
    0 ∈ ((smem_dram_parse none blobC3 sizeof_ddr_details_v3).1.getD
      smem_dram_zeroed).frequencies := by
  decide

/-- Claim C3 amended: every stored frequency is positive provided no walked
    entry's 32-bit product 1000 * freq_khz wraps to exactly 0 with freq_khz
    non-zero (i.e. freq_khz is not a non-zero multiple of 2^29); without that
    proviso the wrapped value 0 itself is stored. -/
theorem freq_positive_unless_wrap (b : Blob) (sz : Nat)
    (h : ∀ i, i < MAX_DDR_FREQ_NUM_V5 →
      1000 * readLE b (ddr_details_v3_freq_tbl_off + i * sizeof_ddr_freq_table +
        ddr_freq_table_freq_khz_off) 4 % 2 ^ 32 = 0 →
      readLE b (ddr_details_v3_freq_tbl_off + i * sizeof_ddr_freq_table +
        ddr_freq_table_freq_khz_off) 4 = 0)
    (d : smem_dram) (hd : (smem_dram_parse none b sz).1 = some d) :
    ∀ v, v ∈ d.frequencies → 0 < v := by
  obtain ⟨n, hn, hfreq⟩ := strategy_frequencies b sz d hd
  intro v hv
  rw [hfreq] at hv
  obtain ⟨i, hi, hval⟩ := List.mem_filterMap.1 hv
  rw [List.mem_range] at hi
  simp only [entryVal] at hval
  by_cases hc : readLE b (ddr_details_v3_freq_tbl_off + i * sizeof_ddr_freq_table +
      ddr_freq_table_freq_khz_off) 4 ≠ 0 ∧
    readLE b (ddr_details_v3_freq_tbl_off + i * sizeof_ddr_freq_table +
      ddr_freq_table_enabled_off) 1 ≠ 0
  · rw [if_pos hc] at hval
    have hv2 := Option.some.inj hval
    rcases Nat.eq_zero_or_pos v with h0 | hpos
    · exact absurd (h i (by omega) (by rw [hv2, h0])) hc.1
    · exact hpos
  · rw [if_neg hc] at hval
    cases hval

/-- Witness for C3: a V3 blob whose only valid entry is 1600000 kHz; all
    stored values (here just 1600000000) are positive. -/
theorem freq_positive_unless_wrap_witness :
    (smem_dram_parse none blob16 sizeof_ddr_details_v3).1 = some ⟨[1600000000], 0⟩ ∧
    0 < (1600000000 : Nat) :=
  ⟨by decide,
   freq_positive_unless_wrap blob16 sizeof_ddr_details_v3 (by decide) ⟨[1600000000], 0⟩
     (by decide) 1600000000 (by decide)⟩
